import Mathlib

/-!
Verification of the password-strength core of PSM-Streamlit (`src/app.py`).

The core consists of two pure functions:
* `check_password_strength` — maps a password to a score, a feedback list,
  and a strength tier;
* `generate_secure_password` — validates a requested length and produces a
  random password from explicit random draws.

A Python `str` is modelled as a `List Char`.  The regex character-class
tests (`[A-Z]`, `[a-z]`, `\d`, `[!@#$%^&*]`) applied to ASCII password text
are modelled as character-range / membership tests, and `re.search` as
`List.any`.  The randomness consumed by the generator (`random.choice`,
`random.choices`, `random.shuffle`) is made explicit as a `RandOutcome`
record: the four drawn class representatives, the filler characters, and a
shuffle function; `RandOutcome.Valid` states exactly what the Python
library guarantees about those draws (membership in the sampled pools, the
requested filler count, and that shuffling permutes its input).
-/

namespace PSM

/-- Python `string.ascii_uppercase`. -/
def ascii_uppercase : List Char := "ABCDEFGHIJKLMNOPQRSTUVWXYZ".toList

/-- Python `string.ascii_lowercase`. -/
def ascii_lowercase : List Char := "abcdefghijklmnopqrstuvwxyz".toList

/-- Python `string.digits`. -/
def string_digits : List Char := "0123456789".toList

/-- The fixed symbol set `!@#$%^&*` used by both core functions. -/
def symbol_set : List Char := "!@#$%^&*".toList

/-- Python `string.ascii_letters` (lowercase followed by uppercase). -/
def ascii_letters : List Char := ascii_lowercase ++ ascii_uppercase

/-- `all_chars = string.ascii_letters + string.digits + '!@#$%^&*'` from
`generate_secure_password` (src/app.py line 70). -/
def all_chars : List Char := ascii_letters ++ string_digits ++ symbol_set

/-- The regex character class `[A-Z]` as a test on one character. -/
def matchUpper (c : Char) : Bool := 'A' ≤ c && c ≤ 'Z'

/-- The regex character class `[a-z]` as a test on one character. -/
def matchLower (c : Char) : Bool := 'a' ≤ c && c ≤ 'z'

/-- The regex character class `\d` as a test on one (ASCII) character. -/
def matchDigit (c : Char) : Bool := '0' ≤ c && c ≤ '9'

/-- The regex character class `[!@#$%^&*]` as a test on one character. -/
def matchSymbol (c : Char) : Bool := symbol_set.contains c

/-- `re.search(pattern, password)` for a single-character-class pattern:
true iff some character of the password matches the class. -/
def re_search (m : Char → Bool) (password : List Char) : Bool := password.any m

/-- The `checks` table of `check_password_strength`
(src/app.py lines 26–31): pattern test and suggestion message, in source
order. -/
def checks : List ((Char → Bool) × String) :=
  [(matchUpper, "Add uppercase letter"),
   (matchLower, "Add lowercase letter"),
   (matchDigit, "Include digit"),
   (matchSymbol, "Add special character")]

/-- `check_password_strength` (src/app.py lines 9–49).  Returns
`(score, feedback, strength)` exactly as the Python function does:
length scoring first (≥12 → +2, else ≥8 → +1, else a feedback message),
then one pass over `checks` adding 1 per matched class and appending the
message of each unmatched class, then the tier from the total score. -/
def check_password_strength (password : List Char) : Nat × List String × String :=
  let lengthStep : Nat × List String :=
    if password.length ≥ 12 then (2, [])
    else if password.length ≥ 8 then (1, [])
    else (0, ["Use at least 8 characters (12+ recommended)"])
  let step : Nat × List String :=
    checks.foldl
      (fun acc pm =>
        if re_search pm.1 password then (acc.1 + 1, acc.2) else (acc.1, acc.2 ++ [pm.2]))
      lengthStep
  let strength : String :=
    if step.1 ≤ 2 then "Weak" else if step.1 ≤ 5 then "Moderate" else "Strong"
  (step.1, step.2, strength)

/-- One outcome of the randomness consumed by `generate_secure_password`:
the four characters drawn by `random.choice`, the filler characters drawn
by `random.choices`, and the permutation applied by `random.shuffle`. -/
structure RandOutcome where
  up : Char
  low : Char
  dig : Char
  sym : Char
  rest : List Char
  shuffle : List Char → List Char

/-- What the Python random library guarantees about an outcome used for a
call of requested length `length`: each `random.choice` returns a member
of the sampled pool, `random.choices(all_chars, k=length-4)` returns
`length - 4` members of `all_chars`, and `random.shuffle` permutes the
list it is given. -/
def RandOutcome.Valid (r : RandOutcome) (length : Int) : Prop :=
  r.up ∈ ascii_uppercase ∧ r.low ∈ ascii_lowercase ∧ r.dig ∈ string_digits ∧
  r.sym ∈ symbol_set ∧ (∀ c ∈ r.rest, c ∈ all_chars) ∧
  r.rest.length = (length - 4).toNat ∧
  ∀ l, (r.shuffle l).Perm l

/-- `generate_secure_password` (src/app.py lines 54–78).  Raises
`ValueError` (modelled as `Except.error` with the source message) when the
requested length is below 8; otherwise concatenates the four guaranteed
characters with the filler and shuffles. -/
def generate_secure_password (length : Int) (r : RandOutcome) :
    Except String (List Char) :=
  if length < 8 then .error "Password length should be at least 8 characters"
  else .ok (r.shuffle ([r.up, r.low, r.dig, r.sym] ++ r.rest))

/-- `generate_secure_password()` called with no argument: the source
declares the default `length=12` (src/app.py line 54). -/
def generate_secure_password_noarg (r : RandOutcome) : Except String (List Char) :=
  generate_secure_password 12 r

/-- Length points of the evaluator, stated on their own
(the `if/elif/else` of src/app.py lines 16–21). -/
def lengthScore (p : List Char) : Nat :=
  if p.length ≥ 12 then 2 else if p.length ≥ 8 then 1 else 0

/-- The length-related feedback of the evaluator, stated on its own. -/
def lengthFeedback (p : List Char) : List String :=
  if p.length ≥ 8 then [] else ["Use at least 8 characters (12+ recommended)"]

/-- Character-class points of the evaluator, stated on their own. -/
def classScore (p : List Char) : Nat :=
  (if re_search matchUpper p then 1 else 0) +
  (if re_search matchLower p then 1 else 0) +
  (if re_search matchDigit p then 1 else 0) +
  (if re_search matchSymbol p then 1 else 0)

/-- Character-class feedback of the evaluator in rule-check order, stated
on its own. -/
def classFeedback (p : List Char) : List String :=
  (if re_search matchUpper p then [] else ["Add uppercase letter"]) ++
  (if re_search matchLower p then [] else ["Add lowercase letter"]) ++
  (if re_search matchDigit p then [] else ["Include digit"]) ++
  (if re_search matchSymbol p then [] else ["Add special character"])

/-- Number of satisfied checks among the five the spec lists:
length ≥ 8, has-uppercase, has-lowercase, has-digit, has-symbol. -/
def satisfiedChecks (p : List Char) : Nat :=
  (if p.length ≥ 8 then 1 else 0) +
  (if re_search matchUpper p then 1 else 0) +
  (if re_search matchLower p then 1 else 0) +
  (if re_search matchDigit p then 1 else 0) +
  (if re_search matchSymbol p then 1 else 0)

/-- A concrete randomness outcome for a length-8 call: draws
`A`, `a`, `0`, `!`, filler `bcde`, identity shuffle. -/
def sampleOutcome8 : RandOutcome :=
  ⟨'A', 'a', '0', '!', "bcde".toList, fun l => l⟩

/-- A concrete randomness outcome for a length-12 call: draws
`A`, `a`, `0`, `!`, filler `bcdefghi`, identity shuffle. -/
def sampleOutcome12 : RandOutcome :=
  ⟨'A', 'a', '0', '!', "bcdefghi".toList, fun l => l⟩

theorem sampleOutcome8_valid : sampleOutcome8.Valid 8 :=
  ⟨by decide, by decide, by decide, by decide, by decide, by decide,
   fun l => List.Perm.refl l⟩

theorem sampleOutcome12_valid : sampleOutcome12.Valid 12 :=
  ⟨by decide, by decide, by decide, by decide, by decide, by decide,
   fun l => List.Perm.refl l⟩

theorem matchUpper_of_mem : ∀ c ∈ ascii_uppercase, matchUpper c = true := by decide

theorem matchLower_of_mem : ∀ c ∈ ascii_lowercase, matchLower c = true := by decide

theorem matchDigit_of_mem : ∀ c ∈ string_digits, matchDigit c = true := by decide

theorem matchSymbol_of_mem : ∀ c ∈ symbol_set, matchSymbol c = true := by decide

theorem upper_sub_all : ∀ c ∈ ascii_uppercase, c ∈ all_chars := by decide

theorem lower_sub_all : ∀ c ∈ ascii_lowercase, c ∈ all_chars := by decide

theorem digits_sub_all : ∀ c ∈ string_digits, c ∈ all_chars := by decide

theorem symbols_sub_all : ∀ c ∈ symbol_set, c ∈ all_chars := by decide

/-- On any length-8-or-more call the generator takes the non-error branch
and returns the shuffled concatenation of the four guaranteed characters
and the filler. -/
theorem generate_ok (n : Int) (r : RandOutcome) (h : 8 ≤ n) :
    generate_secure_password n r =
      .ok (r.shuffle ([r.up, r.low, r.dig, r.sym] ++ r.rest)) := by
  unfold generate_secure_password
  rw [if_neg (by omega)]

/-- The shuffled password of a valid outcome contains a character of each
of the four classes and has `4 + filler` characters. -/
theorem shuffled_facts (n : Int) (r : RandOutcome) (hv : r.Valid n) :
    re_search matchUpper (r.shuffle ([r.up, r.low, r.dig, r.sym] ++ r.rest)) = true ∧
    re_search matchLower (r.shuffle ([r.up, r.low, r.dig, r.sym] ++ r.rest)) = true ∧
    re_search matchDigit (r.shuffle ([r.up, r.low, r.dig, r.sym] ++ r.rest)) = true ∧
    re_search matchSymbol (r.shuffle ([r.up, r.low, r.dig, r.sym] ++ r.rest)) = true ∧
    (r.shuffle ([r.up, r.low, r.dig, r.sym] ++ r.rest)).length = 4 + r.rest.length := by
  obtain ⟨hup, hlow, hdig, hsym, hrest, hlen, hshuf⟩ := hv
  have hperm := hshuf ([r.up, r.low, r.dig, r.sym] ++ r.rest)
  refine ⟨?_, ?_, ?_, ?_, ?_⟩
  · exact List.any_eq_true.mpr
      ⟨r.up, (hperm.mem_iff).mpr (by simp), matchUpper_of_mem _ hup⟩
  · exact List.any_eq_true.mpr
      ⟨r.low, (hperm.mem_iff).mpr (by simp), matchLower_of_mem _ hlow⟩
  · exact List.any_eq_true.mpr
      ⟨r.dig, (hperm.mem_iff).mpr (by simp), matchDigit_of_mem _ hdig⟩
  · exact List.any_eq_true.mpr
      ⟨r.sym, (hperm.mem_iff).mpr (by simp), matchSymbol_of_mem _ hsym⟩
  · rw [hperm.length_eq]
    simp
    omega

/-- The evaluator in closed form: score is length points plus class
points, feedback is the length message (if any) followed by the class
messages in rule order, and the tier is cut from the total score. -/
theorem check_eq (p : List Char) :
    check_password_strength p =
      (lengthScore p + classScore p,
       lengthFeedback p ++ classFeedback p,
       if lengthScore p + classScore p ≤ 2 then "Weak"
       else if lengthScore p + classScore p ≤ 5 then "Moderate"
       else "Strong") := by
  unfold check_password_strength checks lengthScore lengthFeedback classScore classFeedback
  by_cases h12 : p.length ≥ 12 <;> by_cases h8 : p.length ≥ 8 <;>
    by_cases hu : re_search matchUpper p <;>
    by_cases hl : re_search matchLower p <;>
    by_cases hd : re_search matchDigit p <;>
    by_cases hs : re_search matchSymbol p <;>
    simp [List.foldl, h12, h8, hu, hl, hd, hs] <;> omega

/-- C1: for every password the score lies in [0,6] and the strength tier
follows the inclusive thresholds: score ≤ 2 is "Weak", 3–5 is "Moderate",
≥ 6 is "Strong". -/
theorem evaluate_score_range_and_tier (p : List Char) :
    (check_password_strength p).1 ≤ 6 ∧
    ((check_password_strength p).1 ≤ 2 → (check_password_strength p).2.2 = "Weak") ∧
    (3 ≤ (check_password_strength p).1 → (check_password_strength p).1 ≤ 5 →
      (check_password_strength p).2.2 = "Moderate") ∧
    (6 ≤ (check_password_strength p).1 → (check_password_strength p).2.2 = "Strong") := by
  have hL : lengthScore p ≤ 2 := by unfold lengthScore; split_ifs <;> omega
  have hC : classScore p ≤ 4 := by unfold classScore; split_ifs <;> omega
  simp only [check_eq]
  refine ⟨by omega, fun h => ?_, fun h1 h2 => ?_, fun h => ?_⟩ <;>
    split_ifs <;> first | rfl | omega

/-- C1 witness: on the concrete password "abc" the score is at most 2 and
the tier is "Weak". -/
theorem evaluate_score_range_and_tier_witness :
    (check_password_strength "abc".toList).2.2 = "Weak" :=
  (evaluate_score_range_and_tier ("abc".toList)).2.1 (by decide)

/-- C2: for every requested length and every randomness outcome the
generator raises (returns an error) iff the length is below 8; at length
8 or more it returns a string, and the evaluator (a total function of the
password) has no error condition. -/
theorem generate_error_iff_short (n : Int) (r : RandOutcome) :
    ((∃ e, generate_secure_password n r = .error e) ↔ n < 8) ∧
    (8 ≤ n → ∃ s, generate_secure_password n r = .ok s) := by
  unfold generate_secure_password
  by_cases h : n < 8 <;> simp [h]

/-- C2 witness: length 7 raises, length 12 returns a password. -/
theorem generate_error_iff_short_witness :
    (∃ e, generate_secure_password 7 sampleOutcome8 = .error e) ∧
    (∃ s, generate_secure_password 12 sampleOutcome12 = .ok s) :=
  ⟨(generate_error_iff_short 7 sampleOutcome8).1.mpr (by decide),
   (generate_error_iff_short 12 sampleOutcome12).2 (by decide)⟩

/-- C3: for every length n ≥ 8 and every valid randomness outcome the
generated password has exactly n characters. -/
theorem generate_length_exact (n : Int) (r : RandOutcome) (h8 : 8 ≤ n)
    (hv : r.Valid n) :
    ∃ s, generate_secure_password n r = .ok s ∧ (s.length : Int) = n := by
  refine ⟨_, generate_ok n r h8, ?_⟩
  have hlen := hv.2.2.2.2.2.1
  have hfacts := (shuffled_facts n r hv).2.2.2.2
  rw [hfacts, hlen]
  omega

/-- C3 witness: a concrete length-8 call returns an 8-character string. -/
theorem generate_length_exact_witness :
    ∃ s, generate_secure_password 8 sampleOutcome8 = .ok s ∧ (s.length : Int) = 8 :=
  generate_length_exact 8 sampleOutcome8 (by decide) sampleOutcome8_valid

/-- C4: for every length n ≥ 8 and every valid randomness outcome the
generated password contains at least one uppercase letter, one lowercase
letter, one digit and one symbol from the fixed set. -/
theorem generate_has_all_classes (n : Int) (r : RandOutcome) (h8 : 8 ≤ n)
    (hv : r.Valid n) :
    ∃ s, generate_secure_password n r = .ok s ∧
      re_search matchUpper s = true ∧ re_search matchLower s = true ∧
      re_search matchDigit s = true ∧ re_search matchSymbol s = true := by
  obtain ⟨h1, h2, h3, h4, _⟩ := shuffled_facts n r hv
  exact ⟨_, generate_ok n r h8, h1, h2, h3, h4⟩

/-- C4 witness: a concrete length-12 call contains all four classes. -/
theorem generate_has_all_classes_witness :
    ∃ s, generate_secure_password 12 sampleOutcome12 = .ok s ∧
      re_search matchUpper s = true ∧ re_search matchLower s = true ∧
      re_search matchDigit s = true ∧ re_search matchSymbol s = true :=
  generate_has_all_classes 12 sampleOutcome12 (by decide) sampleOutcome12_valid

/-- C5: length points are 2 when length ≥ 12, else 1 when length ≥ 8,
else 0 with the length feedback message prepended to the class
feedback. -/
theorem evaluate_length_points (p : List Char) :
    (p.length ≥ 12 →
      (check_password_strength p).1 = 2 + classScore p ∧
      (check_password_strength p).2.1 = classFeedback p) ∧
    (¬ p.length ≥ 12 → p.length ≥ 8 →
      (check_password_strength p).1 = 1 + classScore p ∧
      (check_password_strength p).2.1 = classFeedback p) ∧
    (¬ p.length ≥ 8 →
      (check_password_strength p).1 = classScore p ∧
      (check_password_strength p).2.1 =
        "Use at least 8 characters (12+ recommended)" :: classFeedback p) := by
  simp only [check_eq]
  unfold lengthScore lengthFeedback
  refine ⟨fun h => ?_, fun h1 h2 => ?_, fun h => ?_⟩ <;>
    split_ifs <;> first | omega | simp

/-- C5 witness: on the concrete short password "abc" the score is the
class score alone and the length message is first in the feedback. -/
theorem evaluate_length_points_witness :
    (check_password_strength "abc".toList).1 = classScore "abc".toList ∧
    (check_password_strength "abc".toList).2.1 =
      "Use at least 8 characters (12+ recommended)" :: classFeedback "abc".toList :=
  (evaluate_length_points "abc".toList).2.2 (by decide)

/-- C6: the four class rules are checked in the fixed order uppercase,
lowercase, digit, symbol; each satisfied rule adds one point and each
unsatisfied rule appends its message after the length feedback, in that
order. -/
theorem evaluate_class_order (p : List Char) :
    (check_password_strength p).1 = lengthScore p
      + ((if re_search matchUpper p then 1 else 0)
        + (if re_search matchLower p then 1 else 0)
        + (if re_search matchDigit p then 1 else 0)
        + (if re_search matchSymbol p then 1 else 0)) ∧
    (check_password_strength p).2.1 = lengthFeedback p
      ++ ((if re_search matchUpper p then [] else ["Add uppercase letter"])
        ++ (if re_search matchLower p then [] else ["Add lowercase letter"])
        ++ (if re_search matchDigit p then [] else ["Include digit"])
        ++ (if re_search matchSymbol p then [] else ["Add special character"])) := by
  simp only [check_eq]
  unfold classScore classFeedback
  constructor
  · omega
  · simp

/-- C7: the number of feedback messages is 5 minus the number of
satisfied checks among length ≥ 8 and the four classes, and the feedback
is empty iff length ≥ 8 and all four classes are present. -/
theorem evaluate_feedback_count (p : List Char) :
    (check_password_strength p).2.1.length = 5 - satisfiedChecks p ∧
    ((check_password_strength p).2.1 = [] ↔
      (p.length ≥ 8 ∧ re_search matchUpper p = true ∧ re_search matchLower p = true ∧
       re_search matchDigit p = true ∧ re_search matchSymbol p = true)) := by
  simp only [check_eq]
  unfold satisfiedChecks lengthFeedback classFeedback
  by_cases h8 : p.length ≥ 8 <;>
    by_cases hu : re_search matchUpper p <;>
    by_cases hl : re_search matchLower p <;>
    by_cases hd : re_search matchDigit p <;>
    by_cases hs : re_search matchSymbol p <;>
    simp [h8, hu, hl, hd, hs]

/-- C8: every generated password passes the evaluator: at length n ≥ 8
with a valid outcome, its score is at least 5 and its feedback is
empty. -/
theorem generate_passes_evaluator (n : Int) (r : RandOutcome) (h8 : 8 ≤ n)
    (hv : r.Valid n) :
    ∃ s, generate_secure_password n r = .ok s ∧
      5 ≤ (check_password_strength s).1 ∧ (check_password_strength s).2.1 = [] := by
  obtain ⟨h1, h2, h3, h4, h5⟩ := shuffled_facts n r hv
  have hlen := hv.2.2.2.2.2.1
  have hslen : (r.shuffle ([r.up, r.low, r.dig, r.sym] ++ r.rest)).length ≥ 8 := by
    rw [h5, hlen]; omega
  refine ⟨_, generate_ok n r h8, ?_, ?_⟩
  · simp only [check_eq]
    have hls : lengthScore (r.shuffle ([r.up, r.low, r.dig, r.sym] ++ r.rest)) ≥ 1 := by
      unfold lengthScore; split_ifs <;> omega
    have hcs : classScore (r.shuffle ([r.up, r.low, r.dig, r.sym] ++ r.rest)) = 4 := by
      unfold classScore; rw [h1, h2, h3, h4]; simp
    omega
  · simp only [check_eq]
    have hLF : lengthFeedback (r.shuffle ([r.up, r.low, r.dig, r.sym] ++ r.rest)) = [] := by
      unfold lengthFeedback; rw [if_pos hslen]
    have hCF : classFeedback (r.shuffle ([r.up, r.low, r.dig, r.sym] ++ r.rest)) = [] := by
      unfold classFeedback; rw [h1, h2, h3, h4]; simp
    rw [hLF, hCF]
    rfl

/-- C8 witness: a concrete length-8 generated password scores at least 5
with empty feedback. -/
theorem generate_passes_evaluator_witness :
    ∃ s, generate_secure_password 8 sampleOutcome8 = .ok s ∧
      5 ≤ (check_password_strength s).1 ∧ (check_password_strength s).2.1 = [] :=
  generate_passes_evaluator 8 sampleOutcome8 (by decide) sampleOutcome8_valid

/-- C9: the three concrete cases of the spec: "abc" scores 1 and is Weak
with the four messages, "Password1!" scores 5 and is Moderate with no
feedback, "Str0ng&Password123" scores 6 and is Strong with no
feedback. -/
theorem evaluate_concrete_cases :
    check_password_strength "abc".toList =
      (1, ["Use at least 8 characters (12+ recommended)", "Add uppercase letter",
           "Include digit", "Add special character"], "Weak") ∧
    check_password_strength "Password1!".toList = (5, [], "Moderate") ∧
    check_password_strength "Str0ng&Password123".toList = (6, [], "Strong") := by
  refine ⟨?_, ?_, ?_⟩ <;> decide

/-- C10: the generator's default length is 12, so a no-argument call
never raises and returns a 12-character string; and every character of
any generated password belongs to the fixed alphabet of letters, digits
and the symbols of the fixed set. -/
theorem generate_default_and_alphabet :
    (∀ r : RandOutcome, r.Valid 12 →
      ∃ s, generate_secure_password_noarg r = .ok s ∧ s.length = 12) ∧
    (∀ (n : Int) (r : RandOutcome), r.Valid n → ∀ s,
      generate_secure_password n r = .ok s → ∀ c ∈ s, c ∈ all_chars) := by
  constructor
  · intro r hv
    refine ⟨_, generate_ok 12 r (by omega), ?_⟩
    have h5 := (shuffled_facts 12 r hv).2.2.2.2
    have hlen := hv.2.2.2.2.2.1
    rw [h5, hlen]
    decide
  · intro n r hv s hok c hc
    obtain ⟨hup, hlow, hdig, hsym, hrest, hlen, hshuf⟩ := hv
    unfold generate_secure_password at hok
    split_ifs at hok
    have hs : s = r.shuffle ([r.up, r.low, r.dig, r.sym] ++ r.rest) := by
      exact (Except.ok.injEq _ _).mp hok.symm
    subst hs
    have hmem := (hshuf ([r.up, r.low, r.dig, r.sym] ++ r.rest)).mem_iff.mp hc
    simp only [List.mem_append, List.mem_cons, List.not_mem_nil, or_false] at hmem
    rcases hmem with ((h | h | h | h) | h)
    · exact h ▸ upper_sub_all _ hup
    · exact h ▸ lower_sub_all _ hlow
    · exact h ▸ digits_sub_all _ hdig
    · exact h ▸ symbols_sub_all _ hsym
    · exact hrest _ h

/-- C10 witness: with a concrete valid outcome the no-argument call
returns a 12-character string drawn from the fixed alphabet. -/
theorem generate_default_and_alphabet_witness :
    ∃ s, generate_secure_password_noarg sampleOutcome12 = .ok s ∧ s.length = 12 :=
  generate_default_and_alphabet.1 sampleOutcome12 sampleOutcome12_valid

end PSM
